import Mathlib

/-!
Verification of the attendance-app core (shallow embedding).

This file embeds, in Lean 4, the pure decision logic of the attendance
tracker: the clock/format helpers (`src/js/utils.js` — `Utils`), the
record store (`src/js/utils.js` — `Storage`), the attendance state
machine and statistics (`src/unnamed/part_001` — `Attendance`,
`Reports`), and proves or refutes the frozen specification claims
about them.

Modelling conventions:
* A JavaScript `Date` value is modelled by `DateTime`, a local calendar
  date plus minutes since midnight.  Epoch-millisecond comparison of two
  well-formed `Date`s (minute < 1440, day < 32, month < 13) coincides
  with lexicographic comparison of the fields, which `DateTime.toKey`
  encodes.  Minute granularity suffices: every comparison in the code
  under verification is at minute granularity.
* JavaScript object spread (`{...old, ...patch}`) is modelled by
  `mergeRecord` over an explicit `RecordPatch` whose `none` fields are
  the keys absent from the patch object.
* `localStorage` is modelled as an in-memory record list; `Storage`
  reads/writes are assumed to succeed (the quota-exceeded path is out of
  scope for all claims).
-/

/-- A local calendar datetime at minute granularity (models a JS `Date`). -/
structure DateTime where
  year : Nat
  month : Nat
  day : Nat
  /-- minutes since local midnight, `< 1440` for well-formed values -/
  minute : Nat
deriving DecidableEq, Repr

/-- Monotone encoding of a well-formed `DateTime`; comparing keys models
comparing JS `Date` objects by their epoch timestamp. -/
def DateTime.toKey (t : DateTime) : Nat :=
  t.minute + 2000 * (t.day + 40 * (t.month + 20 * t.year))

/-- Minutes elapsed from `a` to `b`; models
`Math.floor((end - start) / 60000)` in `Utils.calculateTimeDifference`
(`src/js/utils.js:84-87`).  Exact for same-day times, which is the state
machine's domain (per-day in/out cycles). -/
def minutesBetween (a b : DateTime) : Int :=
  (b.toKey : Int) - (a.toKey : Int)

/-- An attendance record as created by `Attendance.handleTimeIn` and
mutated by `Attendance.handleTimeOut` (`src/unnamed/part_001:951-969`,
`1040-1058`).  Fields not needed by any claim (photos, formatted
strings, locations, userName) are omitted. -/
structure AttendanceRecord where
  id : Nat
  userId : Nat
  /-- the `DD/MM/YYYY` partition key (`Utils.formatDate`) -/
  date : String
  dateTime : DateTime
  timeIn : Option DateTime
  timeOut : Option DateTime
  status : String
  earlyLeave : Bool
  totalWorkMinutes : Option Int
  workHours : Option Int
  workMinutes : Option Int
  synced : Bool
deriving DecidableEq, Repr

/-- Placeholder used where the JS would read `undefined` (never reached
on the paths the theorems take). -/
def emptyRecord : AttendanceRecord :=
  { id := 0, userId := 0, date := "", dateTime := ⟨0, 0, 0, 0⟩,
    timeIn := none, timeOut := none, status := "", earlyLeave := false,
    totalWorkMinutes := none, workHours := none, workMinutes := none,
    synced := false }

instance : Inhabited AttendanceRecord := ⟨emptyRecord⟩

/-- The update object passed to `Storage.updateAttendanceRecord`; a
`none` field is a key absent from the JS patch object, so the spread
`{...records[index], ...updates}` keeps the old value there. -/
structure RecordPatch where
  timeOut : Option (Option DateTime) := none
  status : Option String := none
  earlyLeave : Option Bool := none
  totalWorkMinutes : Option (Option Int) := none
  workHours : Option (Option Int) := none
  workMinutes : Option (Option Int) := none
  synced : Option Bool := none
deriving DecidableEq, Repr

/-- Spread merge `{...r, ...p}`: each field of the result is the patch's value when
the patch carries that key, else the old value. -/
def mergeRecord (r : AttendanceRecord) (p : RecordPatch) : AttendanceRecord :=
  { r with
    timeOut := p.timeOut.getD r.timeOut
    status := p.status.getD r.status
    earlyLeave := p.earlyLeave.getD r.earlyLeave
    totalWorkMinutes := p.totalWorkMinutes.getD r.totalWorkMinutes
    workHours := p.workHours.getD r.workHours
    workMinutes := p.workMinutes.getD r.workMinutes
    synced := p.synced.getD r.synced }

/-- Model of `Storage.updateAttendanceRecord(id, updates)` (`src/js/utils.js:783-794`):
find the first record with the given id; if none, return `false` and
leave storage untouched; otherwise replace that record by the spread
merge and write the array back.  Result is `(success, stored records)`. -/
def updateAttendanceRecord (records : List AttendanceRecord) (id : Nat)
    (p : RecordPatch) : Bool × List AttendanceRecord :=
  match records.findIdx? (fun r => r.id == id) with
  | none => (false, records)
  | some index => (true, records.set index (mergeRecord (records.getD index emptyRecord) p))

/-- Model of `Storage.getTodayAttendance()` (`src/js/utils.js:766-775`): the LAST
record whose `date` equals today's formatted date, or `null`. -/
def getTodayAttendance (records : List AttendanceRecord) (today : String) :
    Option AttendanceRecord :=
  (records.filter (fun r => r.date == today)).getLast?

/-- Leap-year rule `(y % 4 == 0 && y % 100 != 0) || y % 400 == 0` — the Gregorian rule
implemented by the JS `Date` object. -/
def isLeapYear (y : Nat) : Bool :=
  (y % 4 == 0 && y % 100 != 0) || y % 400 == 0

/-- Length of month `m` (1–12) of year `y`, as computed by
`new Date(year, month, 0).getDate()`. -/
def daysInMonth (y m : Nat) : Nat :=
  if m == 2 then (if isLeapYear y then 29 else 28)
  else if m == 4 || m == 6 || m == 9 || m == 11 then 30
  else 31

/-- Model of `Utils.getMonthRange(year, month)` (`src/js/utils.js:366-376`):
`start = new Date(year, month - 1, 1)` is local midnight on the first
day of the month and `end = new Date(year, month, 0)` is local midnight
on the LAST day of the month (both at 00:00). -/
def getMonthRange (year month : Nat) : DateTime × DateTime :=
  (⟨year, month, 1, 0⟩, ⟨year, month, daysInMonth year month, 0⟩)

/-- Model of `Storage.getMonthlyAttendance(year, month)` (`src/js/utils.js:813-821`):
keep the records whose `new Date(record.dateTime)` satisfies
`recordDate >= monthRange.start && recordDate <= monthRange.end`. -/
def getMonthlyAttendance (records : List AttendanceRecord) (year month : Nat) :
    List AttendanceRecord :=
  let monthRange := getMonthRange year month
  records.filter (fun r =>
    monthRange.1.toKey ≤ r.dateTime.toKey && r.dateTime.toKey ≤ monthRange.2.toKey)

/-- Model of `Utils.isLate(actualTime, scheduledTime, threshold)`
(`src/js/utils.js:104-112`): strict comparison of minutes since
midnight against schedule plus threshold. -/
def isLate (actualHour actualMin schedHour schedMin threshold : Nat) : Bool :=
  actualHour * 60 + actualMin > schedHour * 60 + schedMin + threshold

/-- Schedule configuration `CONFIG.WORK_SCHEDULE` (`src/js/config.js:42-46`), a start time, an
end time (hour/minute pairs) and the two thresholds in minutes. -/
structure WorkSchedule where
  startHour : Nat
  startMin : Nat
  endHour : Nat
  endMin : Nat
  lateThreshold : Nat
  earlyLeaveThreshold : Nat
deriving DecidableEq, Repr

/-- The shipped configuration: start `09:00`, end `17:00`, late
threshold `15`, early-leave threshold `30`. -/
def defaultSchedule : WorkSchedule :=
  { startHour := 9, startMin := 0, endHour := 17, endMin := 0,
    lateThreshold := 15, earlyLeaveThreshold := 30 }

/-- The record constructed by `Attendance.handleTimeIn`
(`src/unnamed/part_001:947-969`) once all guards passed: `timeOut` is
`null`, `status` is `late` or `present` by `Utils.isLate` on the
formatted current time (hour and minute of `now`), `synced` is `false`,
and no duration or early-leave field exists yet. -/
def handleTimeIn (sched : WorkSchedule) (newId userId : Nat) (dateStr : String)
    (now : DateTime) : AttendanceRecord :=
  let late := isLate (now.minute / 60) (now.minute % 60)
    sched.startHour sched.startMin sched.lateThreshold
  { id := newId, userId := userId, date := dateStr, dateTime := now,
    timeIn := some now, timeOut := none,
    status := if late then "late" else "present",
    earlyLeave := false, totalWorkMinutes := none,
    workHours := none, workMinutes := none, synced := false }

/-- Model of `Attendance.isEarlyLeave(timeString)` (`src/unnamed/part_001:1101-1107`):
strict `<` against scheduled end minus threshold (JS number arithmetic,
hence over `Int`). -/
def isEarlyLeave (sched : WorkSchedule) (hours minutes : Nat) : Bool :=
  ((hours * 60 + minutes : Nat) : Int)
    < ((sched.endHour * 60 + sched.endMin : Nat) : Int) - (sched.earlyLeaveThreshold : Int)

/-- The outcomes of `Attendance.handleTimeOut`: the early returns at
`src/unnamed/part_001:1002-1017` and the `updated == false` branch at
line 1074. -/
inductive TimeOutError where
  | notAuthenticated
  | notCheckedIn
  | outsideGeofence
  | updateFailed
deriving DecidableEq, Repr

/-- The `updates` object built by `Attendance.handleTimeOut()`
(`src/unnamed/part_001:1040-1058`): `timeOut`, the duration fields from
`Utils.calculateTimeDifference(timeIn, now)`, `earlyLeave`,
`synced: false`, and a `status: 'early_leave'` key present only when
`isEarlyLeave && this.todayRecord.status === 'present'`.  The model of
`Attendance.handleTimeOut()` itself takes the auth and geofence guard
outcomes, the module's `todayRecord` cache (loaded through
`Storage.getTodayAttendance`), the stored records, and the clock; the
guards run in source order (authentication, then
`!this.todayRecord || !this.todayRecord.timeIn` → not-checked-in with
storage untouched, then location), and the success path applies
`Storage.updateAttendanceRecord`, returning the outcome (the merged
record on success) together with the stored records after the call. -/
def timeOutPatch (sched : WorkSchedule) (tr : AttendanceRecord) (now : DateTime) :
    RecordPatch :=
  let timeIn := tr.timeIn.getD now
  let totalMinutes := minutesBetween timeIn now
  let early := isEarlyLeave sched (now.minute / 60) (now.minute % 60)
  { timeOut := some (some now)
    workHours := some (some (Int.fdiv totalMinutes 60))
    workMinutes := some (some (Int.tmod totalMinutes 60))
    totalWorkMinutes := some (some totalMinutes)
    earlyLeave := some early
    synced := some false
    status := if early && tr.status == "present" then some "early_leave" else none }

/-- Pure core of `Attendance.handleTimeOut()`: the guard sequence of
lines 1002-1017 followed by the update of line 1060. -/
def handleTimeOut (sched : WorkSchedule) (authenticated locationValid : Bool)
    (todayRecord : Option AttendanceRecord) (records : List AttendanceRecord)
    (now : DateTime) : Except TimeOutError AttendanceRecord × List AttendanceRecord :=
  if !authenticated then (.error .notAuthenticated, records)
  else match todayRecord with
  | none => (.error .notCheckedIn, records)
  | some tr =>
    if tr.timeIn.isNone then (.error .notCheckedIn, records)
    else if !locationValid then (.error .outsideGeofence, records)
    else
      match updateAttendanceRecord records tr.id (timeOutPatch sched tr now) with
      | (false, rs) => (.error .updateFailed, rs)
      | (true, rs) => (.ok (mergeRecord tr (timeOutPatch sched tr now)), rs)

/-- Model of `[...new Set(xs)]` on strings: first occurrences, in order. -/
def dedupFirst (l : List String) : List String :=
  l.foldl (fun acc x => if x ∈ acc then acc else acc ++ [x]) []

/-- JS truthiness of `record.totalWorkMinutes`: absent (`undefined`) and
`0` are falsy, every other number is truthy. -/
def jsTruthyInt : Option Int → Bool
  | none => false
  | some n => n != 0

/-- The accumulation `if (record.totalWorkMinutes) totalWorkMinutes += record.totalWorkMinutes`
(`src/unnamed/part_001:1176-1179` and `:738-743`). -/
def sumWorkMinutes (rs : List AttendanceRecord) : Int :=
  rs.foldl
    (fun acc r => if jsTruthyInt r.totalWorkMinutes then acc + r.totalWorkMinutes.getD 0 else acc)
    0

/-- JS `Math.round` on an exact rational: `⌊q + 1/2⌋`. -/
def jsRound (q : ℚ) : Int := ⌊q + 1 / 2⌋

/-- JS `Math.trunc`-style truncation of an exact rational (the `%`
operator on JS numbers truncates the quotient toward zero). -/
def jsTrunc (q : ℚ) : Int := if 0 ≤ q then ⌊q⌋ else ⌈q⌉

/-- The `%` operator on (possibly non-integer) JS numbers:
`a - b * trunc(a / b)`. -/
def jsModQ (a b : ℚ) : ℚ := a - b * jsTrunc (a / b)

/-- The current-month filter of `Attendance.getStatistics`
(`src/unnamed/part_001:1155-1159`): keep records whose `dateTime` has
the given 1-based month and full year. -/
def monthlyFilter (records : List AttendanceRecord) (currentYear currentMonth : Nat) :
    List AttendanceRecord :=
  records.filter (fun r => r.dateTime.month == currentMonth && r.dateTime.year == currentYear)

/-- Model of `latestRecordsByDate` (`src/unnamed/part_001:1166-1169`): for each
distinct `date` (first-occurrence order), the LAST record of that date. -/
def latestRecordsByDate (monthly : List AttendanceRecord) : List AttendanceRecord :=
  (dedupFirst (monthly.map (fun r => r.date))).map
    (fun d => ((monthly.filter (fun r => r.date == d)).getLast?).getD emptyRecord)

/-- The object returned by `Attendance.getStatistics`
(`src/unnamed/part_001:1184-1192`).  Note the field named
`totalWorkMinutes` holds `remainingMinutes`, the sum modulo 60. -/
structure Stats where
  totalDays : Nat
  presentDays : Nat
  lateDays : Nat
  earlyLeaveDays : Nat
  totalWorkHours : Int
  totalWorkMinutes : Int
  attendanceRate : Int
deriving DecidableEq, Repr

/-- Model of `Attendance.getStatistics()` (`src/unnamed/part_001:1148-1193`).
The clock reads (`now.getMonth() + 1`, `now.getFullYear()`) are passed
in as `currentYear`/`currentMonth`. -/
def getStatistics (records : List AttendanceRecord) (currentYear currentMonth : Nat) :
    Stats :=
  let monthlyRecords := monthlyFilter records currentYear currentMonth
  let uniqueDates := dedupFirst (monthlyRecords.map (fun r => r.date))
  let totalDays := uniqueDates.length
  let latest := latestRecordsByDate monthlyRecords
  let presentDays := (latest.filter (fun r => r.status == "present")).length
  let lateDays := (latest.filter (fun r => r.status == "late")).length
  let earlyLeaveDays := (latest.filter (fun r => r.earlyLeave)).length
  let totalWorkMinutes := sumWorkMinutes latest
  { totalDays := totalDays, presentDays := presentDays, lateDays := lateDays,
    earlyLeaveDays := earlyLeaveDays
    totalWorkHours := Int.fdiv totalWorkMinutes 60
    totalWorkMinutes := Int.tmod totalWorkMinutes 60
    attendanceRate :=
      if totalDays > 0 then jsRound ((presentDays : ℚ) / (totalDays : ℚ) * 100) else 0 }

/-- The object returned by `Reports.getSummaryStats`
(`src/unnamed/part_001:749-758`). -/
structure SummaryStats where
  totalDays : Nat
  presentDays : Nat
  lateDays : Nat
  earlyLeaveDays : Nat
  totalWorkHours : Int
  avgWorkHours : Int
  avgWorkMins : Int
  attendanceRate : Int
deriving DecidableEq, Repr

/-- Model of `Reports.getSummaryStats(year, month)` (`src/unnamed/part_001:730-759`):
statistics over `Storage.getMonthlyAttendance(year, month)` with NO
per-date reduction — `totalDays` is the raw record count and the status
counts range over every record of the month. -/
def getSummaryStats (records : List AttendanceRecord) (year month : Nat) :
    SummaryStats :=
  let recs := getMonthlyAttendance records year month
  let totalDays := recs.length
  let presentDays := (recs.filter (fun r => r.status == "present")).length
  let lateDays := (recs.filter (fun r => r.status == "late")).length
  let earlyLeaveDays := (recs.filter (fun r => r.earlyLeave)).length
  let totalWorkMinutes := sumWorkMinutes recs
  let avgWorkMinutes : ℚ := if totalDays > 0 then (totalWorkMinutes : ℚ) / (totalDays : ℚ) else 0
  { totalDays := totalDays, presentDays := presentDays, lateDays := lateDays,
    earlyLeaveDays := earlyLeaveDays
    totalWorkHours := ⌊(totalWorkMinutes : ℚ) / 60⌋
    avgWorkHours := ⌊avgWorkMinutes / 60⌋
    avgWorkMins := ⌊jsModQ avgWorkMinutes 60⌋
    attendanceRate :=
      if totalDays > 0 then jsRound ((presentDays : ℚ) / (totalDays : ℚ) * 100) else 0 }

/-- Model of `Attendance.syncAttendance(record)` (`src/unnamed/part_001:1109-1117`):
`Storage.updateAttendanceRecord(record.id, { synced: true })`.  Every
failure path inside `Storage.updateAttendanceRecord` returns `false`
rather than throwing (`src/js/utils.js:783-794` with `getItem`/`setItem`
wrapping their bodies in try/catch), and `syncAttendance` ignores the
returned boolean, so its own `catch` branch is unreachable and the
function always completes normally, leaving storage unchanged on
failure. -/
def syncAttendance (records : List AttendanceRecord) (r : AttendanceRecord) :
    List AttendanceRecord :=
  (updateAttendanceRecord records r.id { synced := some true }).2

/-- The mutable state touched by the offline queue: the stored records
and `Attendance.offlineQueue`. -/
structure SyncState where
  records : List AttendanceRecord
  offlineQueue : List AttendanceRecord
deriving DecidableEq, Repr

/-- Model of `Attendance.syncOfflineQueue()` (`src/unnamed/part_001:1135-1146`):
if the queue is empty do nothing; else snapshot the queue, clear it, run
`syncAttendance` on each snapshotted record (which never throws, so the
`catch` that would re-push a record never fires), and show the success
toast when the queue is empty afterwards.  The returned `Bool` is
whether the success toast was shown. -/
def syncOfflineQueue (st : SyncState) : SyncState × Bool :=
  if st.offlineQueue.length == 0 then (st, false)
  else
    let queue := st.offlineQueue
    let cleared : SyncState := { st with offlineQueue := [] }
    let drained := queue.foldl
      (fun s r => { s with records := syncAttendance s.records r }) cleared
    (drained, drained.offlineQueue.length == 0)

/-- JS `Math.atan2(y, x)`, the two-argument arctangent, restricted to
exact reals (the idealization of the IEEE doubles the code computes
with). -/
noncomputable def atan2 (y x : ℝ) : ℝ :=
  if 0 < x then Real.arctan (y / x)
  else if x < 0 then
    (if 0 ≤ y then Real.arctan (y / x) + Real.pi else Real.arctan (y / x) - Real.pi)
  else
    (if 0 < y then Real.pi / 2 else if y < 0 then -(Real.pi / 2) else 0)

/-- Model of `Utils.calculateDistance(lat1, lon1, lat2, lon2)`
(`src/js/utils.js:175-189`): the Haversine great-circle distance in
meters with Earth radius `6371e3`, over exact reals. -/
noncomputable def calculateDistance (lat1 lon1 lat2 lon2 : ℝ) : ℝ :=
  let R : ℝ := 6371e3
  let phi1 := lat1 * Real.pi / 180
  let phi2 := lat2 * Real.pi / 180
  let dphi := (lat2 - lat1) * Real.pi / 180
  let dlam := (lon2 - lon1) * Real.pi / 180
  let a := Real.sin (dphi / 2) * Real.sin (dphi / 2) +
    Real.cos phi1 * Real.cos phi2 * Real.sin (dlam / 2) * Real.sin (dlam / 2)
  let c := 2 * atan2 (Real.sqrt a) (Real.sqrt (1 - a))
  R * c

/-- Model of `Utils.isWithinGeofence(userLat, userLon, officeLat, officeLon, radius)`
(`src/js/utils.js:200-203`): `distance <= radius`. -/
def isWithinGeofence (userLat userLon officeLat officeLon radius : ℝ) : Prop :=
  calculateDistance userLat userLon officeLat officeLon ≤ radius

/-- A completed first cycle on 01/06/2024: time-in `09:00`, time-out
`12:00`, final status `present`, 180 minutes worked. -/
def recPresent : AttendanceRecord :=
  { id := 1, userId := 1, date := "01/06/2024", dateTime := ⟨2024, 6, 1, 540⟩,
    timeIn := some ⟨2024, 6, 1, 540⟩, timeOut := some ⟨2024, 6, 1, 720⟩,
    status := "present", earlyLeave := false, totalWorkMinutes := some 180,
    workHours := some 3, workMinutes := some 0, synced := false }

/-- A later cycle on the same day 01/06/2024: time-in `13:20` (late by
the morning schedule), 200 minutes worked, final status `late`. -/
def recLate : AttendanceRecord :=
  { id := 2, userId := 1, date := "01/06/2024", dateTime := ⟨2024, 6, 1, 800⟩,
    timeIn := some ⟨2024, 6, 1, 800⟩, timeOut := some ⟨2024, 6, 1, 1000⟩,
    status := "late", earlyLeave := false, totalWorkMinutes := some 200,
    workHours := some 3, workMinutes := some 20, synced := false }

/-- A record on 05/06/2024 with 120 minutes worked. -/
def recWork : AttendanceRecord :=
  { id := 3, userId := 1, date := "05/06/2024", dateTime := ⟨2024, 6, 5, 540⟩,
    timeIn := some ⟨2024, 6, 5, 540⟩, timeOut := some ⟨2024, 6, 5, 660⟩,
    status := "present", earlyLeave := false, totalWorkMinutes := some 120,
    workHours := some 2, workMinutes := some 0, synced := false }

/-- A record created at noon on 30/06/2024, the last day of June. -/
def recNoon : AttendanceRecord :=
  { id := 4, userId := 1, date := "30/06/2024", dateTime := ⟨2024, 6, 30, 720⟩,
    timeIn := some ⟨2024, 6, 30, 720⟩, timeOut := none,
    status := "present", earlyLeave := false, totalWorkMinutes := none,
    workHours := none, workMinutes := none, synced := false }

/-- A record created exactly at midnight on 30/06/2024. -/
def recMidnight : AttendanceRecord :=
  { id := 5, userId := 1, date := "30/06/2024", dateTime := ⟨2024, 6, 30, 0⟩,
    timeIn := some ⟨2024, 6, 30, 0⟩, timeOut := none,
    status := "present", earlyLeave := false, totalWorkMinutes := none,
    workHours := none, workMinutes := none, synced := false }

/-- A completed cycle on 03/06/2024 (`timeIn` and `timeOut` both set),
the `NOT_CHECKED_IN` state of the specification's state machine. -/
def recCompleted : AttendanceRecord :=
  { id := 6, userId := 1, date := "03/06/2024", dateTime := ⟨2024, 6, 3, 540⟩,
    timeIn := some ⟨2024, 6, 3, 540⟩, timeOut := some ⟨2024, 6, 3, 1020⟩,
    status := "present", earlyLeave := false, totalWorkMinutes := some 480,
    workHours := some 8, workMinutes := some 0, synced := true }

/-- An open cycle on 03/06/2024 (`timeOut` still `null`), the
`CHECKED_IN` state. -/
def recCheckedIn : AttendanceRecord :=
  { id := 7, userId := 1, date := "03/06/2024", dateTime := ⟨2024, 6, 3, 540⟩,
    timeIn := some ⟨2024, 6, 3, 540⟩, timeOut := none,
    status := "present", earlyLeave := false, totalWorkMinutes := none,
    workHours := none, workMinutes := none, synced := false }

/-- A queued record whose id matches nothing in the store, so marking it
synced can never succeed. -/
def recGhost : AttendanceRecord :=
  { id := 99, userId := 1, date := "04/06/2024", dateTime := ⟨2024, 6, 4, 540⟩,
    timeIn := some ⟨2024, 6, 4, 540⟩, timeOut := none,
    status := "present", earlyLeave := false, totalWorkMinutes := none,
    workHours := none, workMinutes := none, synced := false }

deriving instance DecidableEq for Except

/-- The record produced by the `16:29` checkout of the C6 witness. -/
def recC6out : AttendanceRecord :=
  { id := 7, userId := 1, date := "03/06/2024", dateTime := ⟨2024, 6, 3, 540⟩,
    timeIn := some ⟨2024, 6, 3, 540⟩, timeOut := some ⟨2024, 6, 3, 989⟩,
    status := "early_leave", earlyLeave := true, totalWorkMinutes := some 449,
    workHours := some 7, workMinutes := some 29, synced := false }

/-- A sample patch touching only `status` and `synced`. -/
def samplePatch : RecordPatch := { status := some "late", synced := some true }

/-- Reduction of the `status` field written by `handleTimeIn` to the
minutes-since-midnight comparison of the claim. -/
theorem handleTimeIn_status (sched : WorkSchedule) (newId userId : Nat)
    (dateStr : String) (now : DateTime) :
    (handleTimeIn sched newId userId dateStr now).status =
      if now.minute > sched.startHour * 60 + sched.startMin + sched.lateThreshold
      then "late" else "present" := by
  have hmod : now.minute / 60 * 60 + now.minute % 60 = now.minute := by omega
  simp only [handleTimeIn, isLate, hmod, decide_eq_true_eq]

/-- C5: a successful time-in derives status `late` exactly when the
actual minutes since midnight strictly exceed the scheduled start
minutes plus the late threshold, `present` otherwise; with the shipped
schedule (start 09:00, threshold 15) a `08:59` time-in is `present`,
`09:15` is `present` (strict boundary), and `09:16` is `late`. -/
theorem timeIn_late_iff_strictly_after_threshold (sched : WorkSchedule)
    (newId userId : Nat) (dateStr : String) (now : DateTime) :
    ((handleTimeIn sched newId userId dateStr now).status = "late" ↔
      now.minute > sched.startHour * 60 + sched.startMin + sched.lateThreshold) ∧
    ((handleTimeIn sched newId userId dateStr now).status = "late" ∨
      (handleTimeIn sched newId userId dateStr now).status = "present") ∧
    (handleTimeIn defaultSchedule newId userId dateStr ⟨2024, 6, 3, 8 * 60 + 59⟩).status
      = "present" ∧
    (handleTimeIn defaultSchedule newId userId dateStr ⟨2024, 6, 3, 9 * 60 + 15⟩).status
      = "present" ∧
    (handleTimeIn defaultSchedule newId userId dateStr ⟨2024, 6, 3, 9 * 60 + 16⟩).status
      = "late" := by
  refine ⟨?_, ?_, ?_, ?_, ?_⟩
  · rw [handleTimeIn_status]
    split_ifs with h
    · exact iff_of_true rfl h
    · exact iff_of_false (by decide) h
  · rw [handleTimeIn_status]
    split_ifs
    · exact Or.inl rfl
    · exact Or.inr rfl
  · rw [handleTimeIn_status]; rfl
  · rw [handleTimeIn_status]; rfl
  · rw [handleTimeIn_status]; rfl

/-- C7: the geofence check classifies a user inside exactly when the
Haversine distance computed by `calculateDistance` is at most the
radius; in particular a point at distance exactly the radius is inside
(`<=`, not `<`). -/
theorem withinGeofence_iff_distance_le_radius :
    (∀ userLat userLon officeLat officeLon radius : ℝ,
      isWithinGeofence userLat userLon officeLat officeLon radius ↔
        calculateDistance userLat userLon officeLat officeLon ≤ radius) ∧
    (∀ userLat userLon officeLat officeLon radius : ℝ,
      calculateDistance userLat userLon officeLat officeLon = radius →
        isWithinGeofence userLat userLon officeLat officeLon radius) :=
  ⟨fun _ _ _ _ _ => Iff.rfl, fun _ _ _ _ _ h => le_of_eq h⟩

/-- Witness for C7 at the office coordinates themselves: the distance
evaluates to `0` and a radius of exactly `0` classifies the point
inside. -/
theorem withinGeofence_iff_distance_le_radius_witness :
    calculateDistance 0 0 0 0 = 0 ∧ isWithinGeofence 0 0 0 0 0 := by
  have h : calculateDistance 0 0 0 0 = 0 := by
    unfold calculateDistance atan2
    norm_num [Real.sqrt_zero, Real.sqrt_one, Real.arctan_zero]
  exact ⟨h, withinGeofence_iff_distance_le_radius.2 0 0 0 0 0 h⟩

/-- Arithmetic core of C8: the ternary the code computes equals the
claim's guarded rounding of `100 * present / total`. -/
theorem rate_ternary_eq_guarded_round (p t : Nat) :
    (if t > 0 then jsRound ((p : ℚ) / (t : ℚ) * 100) else 0) =
      if t = 0 then 0 else jsRound ((100 * (p : ℚ)) / (t : ℚ)) := by
  rcases Nat.eq_zero_or_pos t with h | h
  · subst h; simp
  · rw [if_pos h, if_neg (Nat.pos_iff_ne_zero.mp h)]
    congr 1
    ring

/-- C8: in both monthly summaries, `attendanceRate` is `0` when
`totalDays = 0` and `round(100 * presentDays / totalDays)` otherwise;
the defining expressions guard the division so it never divides by
zero. -/
theorem attendanceRate_zero_guarded (records : List AttendanceRecord)
    (year month : Nat) :
    ((getStatistics records year month).attendanceRate =
      if (getStatistics records year month).totalDays = 0 then 0
      else jsRound ((100 * ((getStatistics records year month).presentDays : ℚ)) /
        ((getStatistics records year month).totalDays : ℚ))) ∧
    ((getSummaryStats records year month).attendanceRate =
      if (getSummaryStats records year month).totalDays = 0 then 0
      else jsRound ((100 * ((getSummaryStats records year month).presentDays : ℚ)) /
        ((getSummaryStats records year month).totalDays : ℚ))) := by
  constructor
  · simpa only [getStatistics] using
      rate_ternary_eq_guarded_round
        ((latestRecordsByDate (monthlyFilter records year month)).filter
          (fun r => r.status == "present")).length
        (dedupFirst ((monthlyFilter records year month).map (fun r => r.date))).length
  · simpa only [getSummaryStats] using
      rate_ternary_eq_guarded_round
        ((getMonthlyAttendance records year month).filter
          (fun r => r.status == "present")).length
        (getMonthlyAttendance records year month).length

/-- Characterization of a successful time-out: the returned record is
the spread merge of the cached record with the constructed `updates`
patch. -/
theorem handleTimeOut_ok_eq (sched : WorkSchedule) (auth loc : Bool)
    (tr : AttendanceRecord) (records : List AttendanceRecord) (now : DateTime)
    (rec : AttendanceRecord) (rs : List AttendanceRecord)
    (h : handleTimeOut sched auth loc (some tr) records now = (.ok rec, rs)) :
    rec = mergeRecord tr (timeOutPatch sched tr now) := by
  unfold handleTimeOut at h
  cases auth with
  | false => simp at h
  | true =>
    simp only [Bool.not_true, Bool.false_eq_true, if_false] at h
    by_cases htin : tr.timeIn.isNone = true
    · rw [if_pos htin] at h
      simp at h
    · rw [if_neg htin] at h
      cases loc with
      | false => simp at h
      | true =>
        simp only [Bool.not_true, Bool.false_eq_true, if_false] at h
        rcases hu : updateAttendanceRecord records tr.id (timeOutPatch sched tr now)
          with ⟨b, rs'⟩
        rw [hu] at h
        cases b with
        | false => simp at h
        | true =>
          simp only [Prod.mk.injEq, Except.ok.injEq] at h
          exact h.1.symm

/-- C6: on every successful time-out, `earlyLeave` is set exactly when
the checkout's minutes since midnight are strictly below the scheduled
end minutes minus the early-leave threshold, and the status becomes
`early_leave` exactly when `earlyLeave` holds and the prior status was
`present`; a prior `late` status is never overwritten. -/
theorem timeOut_earlyLeave_and_status (sched : WorkSchedule) (auth loc : Bool)
    (tr : AttendanceRecord) (records : List AttendanceRecord) (now : DateTime)
    (rec : AttendanceRecord) (rs : List AttendanceRecord)
    (h : handleTimeOut sched auth loc (some tr) records now = (.ok rec, rs)) :
    (rec.earlyLeave = true ↔
      ((now.minute : Int) <
        ((sched.endHour * 60 + sched.endMin : Nat) : Int) - (sched.earlyLeaveThreshold : Int))) ∧
    rec.status =
      (if rec.earlyLeave && (tr.status == "present") then "early_leave" else tr.status) ∧
    (tr.status = "late" → rec.status = "late") := by
  have hrec := handleTimeOut_ok_eq sched auth loc tr records now rec rs h
  have hmod : now.minute / 60 * 60 + now.minute % 60 = now.minute := by omega
  have hearly : rec.earlyLeave = isEarlyLeave sched (now.minute / 60) (now.minute % 60) := by
    rw [hrec]; rfl
  have hiff : rec.earlyLeave = true ↔
      ((now.minute : Int) <
        ((sched.endHour * 60 + sched.endMin : Nat) : Int) - (sched.earlyLeaveThreshold : Int)) := by
    rw [hearly]
    simp only [isEarlyLeave, hmod, decide_eq_true_eq]
  refine ⟨hiff, ?_, ?_⟩
  · have hst : rec.status =
        (if isEarlyLeave sched (now.minute / 60) (now.minute % 60) && (tr.status == "present")
          then "early_leave" else tr.status) := by
      rw [hrec]
      by_cases hc : (isEarlyLeave sched (now.minute / 60) (now.minute % 60)
          && (tr.status == "present")) = true
      · simp [mergeRecord, timeOutPatch, hc]
      · simp [mergeRecord, timeOutPatch, hc]
    rw [hst, hearly]
  · intro hlate
    rw [hrec]
    by_cases hc : (isEarlyLeave sched (now.minute / 60) (now.minute % 60)
        && (tr.status == "present")) = true
    · rw [hlate] at hc
      simp at hc
    · simp [mergeRecord, timeOutPatch, hc, hlate]

/-- Witness for C6: checking out at `16:29` under the shipped schedule
(end `17:00`, threshold `30`) from a `present` cycle yields
`earlyLeave = true` and final status `early_leave`. -/
theorem timeOut_earlyLeave_and_status_witness :
    handleTimeOut defaultSchedule true true (some recCheckedIn) [recCheckedIn]
        ⟨2024, 6, 3, 16 * 60 + 29⟩ = (.ok recC6out, [recC6out]) ∧
      recC6out.earlyLeave = true ∧ recC6out.status = "early_leave" := by
  have h : handleTimeOut defaultSchedule true true (some recCheckedIn) [recCheckedIn]
      ⟨2024, 6, 3, 16 * 60 + 29⟩ = (.ok recC6out, [recC6out]) := by decide
  have hp := timeOut_earlyLeave_and_status defaultSchedule true true recCheckedIn
    [recCheckedIn] ⟨2024, 6, 3, 16 * 60 + 29⟩ recC6out [recC6out] h
  refine ⟨h, hp.1.mpr (by decide), ?_⟩
  rw [hp.2.1]
  decide

/-- C10: when the store update finds a record with the given id it
succeeds and replaces exactly that position by the spread merge of the
old record with the patch — length and every other position unchanged,
unpatched fields keeping their old values and patched fields taking the
patch's — and when no record matches it returns failure with the stored
collection untouched. -/
theorem updateRecord_merge_and_frame (records : List AttendanceRecord)
    (id : Nat) (p : RecordPatch) :
    (records.findIdx? (fun r => r.id == id) = none →
      updateAttendanceRecord records id p = (false, records)) ∧
    (∀ i, records.findIdx? (fun r => r.id == id) = some i →
      (updateAttendanceRecord records id p).1 = true ∧
      (updateAttendanceRecord records id p).2
        = records.set i (mergeRecord (records.getD i emptyRecord) p) ∧
      (updateAttendanceRecord records id p).2.length = records.length ∧
      (updateAttendanceRecord records id p).2[i]?
        = some (mergeRecord (records.getD i emptyRecord) p) ∧
      (∀ j, j ≠ i → (updateAttendanceRecord records id p).2[j]? = records[j]?)) ∧
    (∀ r : AttendanceRecord,
      (mergeRecord r p).id = r.id ∧
      (mergeRecord r p).userId = r.userId ∧
      (mergeRecord r p).date = r.date ∧
      (mergeRecord r p).dateTime = r.dateTime ∧
      (mergeRecord r p).timeIn = r.timeIn ∧
      (p.timeOut = none → (mergeRecord r p).timeOut = r.timeOut) ∧
      (p.status = none → (mergeRecord r p).status = r.status) ∧
      (p.earlyLeave = none → (mergeRecord r p).earlyLeave = r.earlyLeave) ∧
      (p.totalWorkMinutes = none → (mergeRecord r p).totalWorkMinutes = r.totalWorkMinutes) ∧
      (p.workHours = none → (mergeRecord r p).workHours = r.workHours) ∧
      (p.workMinutes = none → (mergeRecord r p).workMinutes = r.workMinutes) ∧
      (p.synced = none → (mergeRecord r p).synced = r.synced) ∧
      (∀ v, p.timeOut = some v → (mergeRecord r p).timeOut = v) ∧
      (∀ v, p.status = some v → (mergeRecord r p).status = v) ∧
      (∀ v, p.earlyLeave = some v → (mergeRecord r p).earlyLeave = v) ∧
      (∀ v, p.totalWorkMinutes = some v → (mergeRecord r p).totalWorkMinutes = v) ∧
      (∀ v, p.workHours = some v → (mergeRecord r p).workHours = v) ∧
      (∀ v, p.workMinutes = some v → (mergeRecord r p).workMinutes = v) ∧
      (∀ v, p.synced = some v → (mergeRecord r p).synced = v)) := by
  refine ⟨?_, ?_, ?_⟩
  · intro h
    unfold updateAttendanceRecord
    rw [h]
  · intro i hi
    have hlt : i < records.length :=
      (List.findIdx?_eq_some_iff_findIdx_eq.mp hi).1
    have heq : updateAttendanceRecord records id p
        = (true, records.set i (mergeRecord (records.getD i emptyRecord) p)) := by
      unfold updateAttendanceRecord
      rw [hi]
    refine ⟨by rw [heq], by rw [heq], ?_, ?_, ?_⟩
    · rw [heq]
      exact List.length_set records i _
    · rw [heq]
      exact List.getElem?_set_self hlt
    · intro j hj
      rw [heq]
      exact List.getElem?_set_ne (fun hc => hj hc.symm)
  · intro r
    refine ⟨rfl, rfl, rfl, rfl, rfl, ?_, ?_, ?_, ?_, ?_, ?_, ?_, ?_, ?_, ?_, ?_, ?_, ?_, ?_⟩
    all_goals intro h
    case _ => simp [mergeRecord, h]
    case _ => simp [mergeRecord, h]
    case _ => simp [mergeRecord, h]
    case _ => simp [mergeRecord, h]
    case _ => simp [mergeRecord, h]
    case _ => simp [mergeRecord, h]
    case _ => simp [mergeRecord, h]
    all_goals intro hv
    all_goals simp [mergeRecord, hv]

/-- Witness for C10 on a two-record store: updating id 2 succeeds,
leaves position 0 and the length unchanged, and updating the unknown
id 99 fails with the store untouched. -/
theorem updateRecord_merge_and_frame_witness :
    (updateAttendanceRecord [recPresent, recLate] 2 samplePatch).1 = true ∧
    (updateAttendanceRecord [recPresent, recLate] 2 samplePatch).2[0]? = some recPresent ∧
    (updateAttendanceRecord [recPresent, recLate] 2 samplePatch).2.length = 2 ∧
    updateAttendanceRecord [recPresent, recLate] 99 samplePatch
      = (false, [recPresent, recLate]) := by
  have hidx : [recPresent, recLate].findIdx? (fun r => r.id == 2) = some 1 := by decide
  have hnone : [recPresent, recLate].findIdx? (fun r => r.id == 99) = none := by decide
  obtain ⟨h1, hset, hlen, hself, hother⟩ :=
    (updateRecord_merge_and_frame [recPresent, recLate] 2 samplePatch).2.1 1 hidx
  refine ⟨h1, ?_, ?_, (updateRecord_merge_and_frame [recPresent, recLate] 99 samplePatch).1 hnone⟩
  · rw [hother 0 (by decide)]
    rfl
  · rw [hlen]
    rfl

/-- C1 (amended): `handleTimeOut` fails with the not-checked-in error
precisely when the caller is authenticated and the cached today record
is absent or lacks `timeIn`; on that failure the stored records are
untouched; and every success requires a cached today record whose
`timeIn` is set.  (A today record whose `timeOut` is already set does
NOT block: the guard never inspects `timeOut`.) -/
theorem timeOut_notCheckedIn_iff (sched : WorkSchedule) (auth loc : Bool)
    (todayRecord : Option AttendanceRecord) (records : List AttendanceRecord)
    (now : DateTime) :
    ((handleTimeOut sched auth loc todayRecord records now).1 = .error .notCheckedIn ↔
      auth = true ∧ (todayRecord = none ∨
        ∃ tr, todayRecord = some tr ∧ tr.timeIn = none)) ∧
    ((handleTimeOut sched auth loc todayRecord records now).1 = .error .notCheckedIn →
      (handleTimeOut sched auth loc todayRecord records now).2 = records) ∧
    (∀ rec, (handleTimeOut sched auth loc todayRecord records now).1 = .ok rec →
      ∃ tr, todayRecord = some tr ∧ tr.timeIn.isSome = true) := by
  unfold handleTimeOut
  cases auth with
  | false => simp
  | true =>
    cases todayRecord with
    | none => simp
    | some tr =>
      cases htin : tr.timeIn with
      | none => simp [htin]
      | some t =>
        cases loc with
        | false => simp [htin]
        | true =>
          simp only [Bool.not_true, Bool.false_eq_true, if_false]
          rcases hu : updateAttendanceRecord records tr.id (timeOutPatch sched tr now)
            with ⟨b, rs'⟩
          cases b with
          | false => simp [htin]
          | true => simp [htin]

/-- Witness for C1 (amended): with no today record the time-out fails
with the not-checked-in error and storage is unchanged. -/
theorem timeOut_notCheckedIn_iff_witness :
    (handleTimeOut defaultSchedule true true none [recCompleted] ⟨2024, 6, 3, 1080⟩).1
      = .error .notCheckedIn ∧
    (handleTimeOut defaultSchedule true true none [recCompleted] ⟨2024, 6, 3, 1080⟩).2
      = [recCompleted] := by
  have h := timeOut_notCheckedIn_iff defaultSchedule true true none [recCompleted]
    ⟨2024, 6, 3, 1080⟩
  have h1 := h.1.mpr ⟨rfl, Or.inl rfl⟩
  exact ⟨h1, h.2.1 h1⟩

/-- Counterexample to C1 as stated: with the latest (and only) today
record a COMPLETED cycle — `timeIn` and `timeOut` both set, the
specification's `NOT_CHECKED_IN` state — a further time-out does not
fail with the not-checked-in error: it succeeds and mutates the stored
record (overwriting the finished cycle's `timeOut` and durations). -/
theorem timeOut_completedCycle_succeeds :
    getTodayAttendance [recCompleted] "03/06/2024" = some recCompleted ∧
    recCompleted.timeIn.isSome = true ∧
    recCompleted.timeOut.isSome = true ∧
    (handleTimeOut defaultSchedule true true (some recCompleted) [recCompleted]
      ⟨2024, 6, 3, 1080⟩).1 ≠ .error .notCheckedIn ∧
    ((handleTimeOut defaultSchedule true true (some recCompleted) [recCompleted]
      ⟨2024, 6, 3, 1080⟩).1.isOk = true) ∧
    (handleTimeOut defaultSchedule true true (some recCompleted) [recCompleted]
      ⟨2024, 6, 3, 1080⟩).2 ≠ [recCompleted] := by
  refine ⟨by decide, by decide, by decide, by decide, by decide, by decide⟩

/-- One insertion step of `dedupFirst` adds exactly the new element. -/
theorem mem_dedupInsert (acc : List String) (a x : String) :
    x ∈ (if a ∈ acc then acc else acc ++ [a]) ↔ x ∈ acc ∨ x = a := by
  split_ifs with h
  · constructor
    · exact Or.inl
    · rintro (hx | rfl)
      · exact hx
      · exact h
  · simp [List.mem_append]

/-- Invariant of the `dedupFirst` fold: membership in the result is
membership in the seed accumulator or in the traversed list. -/
theorem mem_dedupFirst_aux (l : List String) :
    ∀ (acc : List String) (x : String),
      (x ∈ l.foldl (fun acc x => if x ∈ acc then acc else acc ++ [x]) acc ↔
        x ∈ acc ∨ x ∈ l) := by
  induction l with
  | nil => intro acc x; simp
  | cons a as ih =>
    intro acc x
    rw [List.foldl_cons, ih, mem_dedupInsert acc a x]
    constructor
    · rintro ((hx | rfl) | hx)
      · exact Or.inl hx
      · exact Or.inr (List.mem_cons_self _ _)
      · exact Or.inr (List.mem_cons_of_mem _ hx)
    · rintro (hx | hx)
      · exact Or.inl (Or.inl hx)
      · rcases List.mem_cons.mp hx with rfl | hx
        · exact Or.inl (Or.inr rfl)
        · exact Or.inr hx

/-- Membership in `dedupFirst l` is membership in `l`. -/
theorem mem_dedupFirst {l : List String} {x : String} :
    x ∈ dedupFirst l ↔ x ∈ l := by
  rw [dedupFirst, mem_dedupFirst_aux]
  simp

/-- For a date present among a list's `date` keys, the filtered list of
that date is nonempty and its last element is a record of the list with
that date — the "last record of the day wins" selection. -/
theorem getLast?_filter_date (monthly : List AttendanceRecord) (d : String)
    (hd : d ∈ monthly.map (fun r => r.date)) :
    ∃ c, (monthly.filter (fun r => r.date == d)).getLast? = some c ∧
      c ∈ monthly ∧ c.date = d := by
  have hne : monthly.filter (fun r => r.date == d) ≠ [] := by
    obtain ⟨r, hr, hdr⟩ := List.mem_map.mp hd
    intro hc
    have hrf : r ∈ monthly.filter (fun r => r.date == d) :=
      List.mem_filter.mpr ⟨hr, by simp [hdr]⟩
    rw [hc] at hrf
    exact absurd hrf (List.not_mem_nil r)
  obtain ⟨c, hc⟩ := Option.isSome_iff_exists.mp (List.getLast?_isSome.mpr hne)
  have hcf := List.mem_filter.mp (List.mem_of_mem_getLast? hc)
  exact ⟨c, hc, hcf.1, by simpa using hcf.2⟩

/-- C2 (amended): `Attendance.getStatistics` — the current-month
statistics — reduces the month's records to one per distinct date,
choosing the LAST record of each date: `totalDays` counts distinct
dates and the status/flag counts range over the chosen final records
only, so the spec's example (same-day `present` then `late`) yields
`totalDays = 1`, `presentDays = 0`, `lateDays = 1`.
`Reports.getSummaryStats` — the year+month report summary — performs no
such reduction and counts every record of the month. -/
theorem statistics_lastRecordOfDayWins :
    (∀ (records : List AttendanceRecord) (year month : Nat),
      (getStatistics records year month).totalDays =
        (dedupFirst ((monthlyFilter records year month).map (fun r => r.date))).length ∧
      (getStatistics records year month).presentDays =
        ((latestRecordsByDate (monthlyFilter records year month)).filter
          (fun r => r.status == "present")).length ∧
      (getStatistics records year month).lateDays =
        ((latestRecordsByDate (monthlyFilter records year month)).filter
          (fun r => r.status == "late")).length ∧
      (getStatistics records year month).earlyLeaveDays =
        ((latestRecordsByDate (monthlyFilter records year month)).filter
          (fun r => r.earlyLeave)).length) ∧
    (∀ (monthly : List AttendanceRecord) (d : String),
      d ∈ dedupFirst (monthly.map (fun r => r.date)) →
      ∃ c, (monthly.filter (fun r => r.date == d)).getLast? = some c ∧
        c ∈ monthly ∧ c.date = d ∧
        ((monthly.filter (fun r => r.date == d)).getLast?).getD emptyRecord = c) ∧
    (getStatistics [recPresent, recLate] 2024 6).totalDays = 1 ∧
    (getStatistics [recPresent, recLate] 2024 6).presentDays = 0 ∧
    (getStatistics [recPresent, recLate] 2024 6).lateDays = 1 ∧
    (getStatistics [recPresent, recLate] 2024 6).earlyLeaveDays = 0 ∧
    (getSummaryStats [recPresent, recLate] 2024 6).totalDays = 2 := by
  refine ⟨fun records year month => ⟨rfl, rfl, rfl, rfl⟩, ?_,
    by decide, by decide, by decide, by decide, by decide⟩
  intro monthly d hd
  obtain ⟨c, hc, hmem, hdc⟩ := getLast?_filter_date monthly d (mem_dedupFirst.mp hd)
  exact ⟨c, hc, hmem, hdc, by rw [hc]; rfl⟩

/-- Witness for C2 (amended): on the example store, the chosen record
for date `01/06/2024` is `recLate`, the last record of that date. -/
theorem statistics_lastRecordOfDayWins_witness :
    ∃ c, ([recPresent, recLate].filter (fun r => r.date == "01/06/2024")).getLast?
        = some c ∧ c ∈ [recPresent, recLate] ∧ c.date = "01/06/2024" ∧
      (([recPresent, recLate].filter (fun r => r.date == "01/06/2024")).getLast?).getD
        emptyRecord = c := by
  exact statistics_lastRecordOfDayWins.2.1 [recPresent, recLate] "01/06/2024" (by decide)

/-- Counterexample to C2 as stated: quantified over year+month, "the
monthly summary" is `Reports.getSummaryStats(year, month)`, and on the
spec's own example — two same-day records, `present` then the later
`late` — it returns `totalDays = 2`, `presentDays = 1`, `lateDays = 1`
instead of the claimed `1 / 0 / 1`, although the records span one
distinct date and both lie in the queried month. -/
theorem summaryStats_counts_duplicate_dates :
    (getSummaryStats [recPresent, recLate] 2024 6).totalDays = 2 ∧
    (getSummaryStats [recPresent, recLate] 2024 6).presentDays = 1 ∧
    (getSummaryStats [recPresent, recLate] 2024 6).lateDays = 1 ∧
    dedupFirst ([recPresent, recLate].map (fun r => r.date)) = ["01/06/2024"] ∧
    getMonthlyAttendance [recPresent, recLate] 2024 6 = [recPresent, recLate] := by
  refine ⟨by decide, by decide, by decide, by decide, by decide⟩

/-- The `sumWorkMinutes` fold adds per-record contributions: each
selected record contributes its OWN `totalWorkMinutes` (when truthy)
and nothing else — durations are never combined across records. -/
theorem sumWorkMinutes_eq_map_sum (rs : List AttendanceRecord) :
    sumWorkMinutes rs = (rs.map (fun r =>
      if jsTruthyInt r.totalWorkMinutes then r.totalWorkMinutes.getD 0 else 0)).sum := by
  have aux : ∀ (l : List AttendanceRecord) (a : Int),
      l.foldl (fun acc r =>
          if jsTruthyInt r.totalWorkMinutes then acc + r.totalWorkMinutes.getD 0 else acc) a
        = a + (l.map (fun r =>
          if jsTruthyInt r.totalWorkMinutes then r.totalWorkMinutes.getD 0 else 0)).sum := by
    intro l
    induction l with
    | nil => intro a; simp
    | cons r l ih =>
      intro a
      rw [List.foldl_cons, ih, List.map_cons, List.sum_cons]
      by_cases h : jsTruthyInt r.totalWorkMinutes = true
      · rw [if_pos h, if_pos h]
        ring
      · rw [if_neg h, if_neg h]
        ring
  rw [sumWorkMinutes, aux]
  ring

/-- Counterexample to C3 as stated: the returned field named
`totalWorkMinutes` is NOT the sum of the selected records' durations —
for a single selected record of 120 minutes, the sum is 120 but the
field holds `120 % 60 = 0`. -/
theorem statistics_totalWorkMinutes_is_remainder :
    sumWorkMinutes (latestRecordsByDate (monthlyFilter [recWork] 2024 6)) = 120 ∧
    (getStatistics [recWork] 2024 6).totalWorkMinutes = 0 ∧
    ¬((getStatistics [recWork] 2024 6).totalWorkMinutes =
      sumWorkMinutes (latestRecordsByDate (monthlyFilter [recWork] 2024 6))) := by
  refine ⟨by decide, by decide, by decide⟩

/-- C3 (amended): the sum of the selected records' own durations is
computed over the reduced one-record-per-date set only (never across
records), but it is returned SPLIT: `totalWorkHours` holds the sum
divided by 60 (floored) and the field named `totalWorkMinutes` holds
the remainder `sum % 60`; for a nonnegative sum the two fields
recombine to exactly the sum. -/
theorem statistics_work_duration_split (records : List AttendanceRecord)
    (year month : Nat)
    (h : 0 ≤ sumWorkMinutes (latestRecordsByDate (monthlyFilter records year month))) :
    (getStatistics records year month).totalWorkHours =
      Int.fdiv (sumWorkMinutes (latestRecordsByDate (monthlyFilter records year month))) 60 ∧
    (getStatistics records year month).totalWorkMinutes =
      Int.tmod (sumWorkMinutes (latestRecordsByDate (monthlyFilter records year month))) 60 ∧
    60 * (getStatistics records year month).totalWorkHours +
        (getStatistics records year month).totalWorkMinutes =
      sumWorkMinutes (latestRecordsByDate (monthlyFilter records year month)) ∧
    sumWorkMinutes (latestRecordsByDate (monthlyFilter records year month)) =
      ((latestRecordsByDate (monthlyFilter records year month)).map (fun r =>
        if jsTruthyInt r.totalWorkMinutes then r.totalWorkMinutes.getD 0 else 0)).sum := by
  refine ⟨rfl, rfl, ?_, sumWorkMinutes_eq_map_sum _⟩
  have hfd := Int.fdiv_eq_ediv
    (sumWorkMinutes (latestRecordsByDate (monthlyFilter records year month)))
    (by norm_num : (0 : Int) ≤ 60)
  have htm := Int.tmod_eq_emod h (by norm_num : (0 : Int) ≤ 60)
  have hsplit := Int.ediv_add_emod
    (sumWorkMinutes (latestRecordsByDate (monthlyFilter records year month))) 60
  have h1 : (getStatistics records year month).totalWorkHours =
      Int.fdiv (sumWorkMinutes (latestRecordsByDate (monthlyFilter records year month))) 60 :=
    rfl
  have h2 : (getStatistics records year month).totalWorkMinutes =
      Int.tmod (sumWorkMinutes (latestRecordsByDate (monthlyFilter records year month))) 60 :=
    rfl
  rw [h1, h2, hfd, htm]
  exact hsplit

/-- Witness for C3 (amended) at the single-record store: the fields
recombine as `60 * 2 + 0 = 120`, the record's own duration. -/
theorem statistics_work_duration_split_witness :
    0 ≤ sumWorkMinutes (latestRecordsByDate (monthlyFilter [recWork] 2024 6)) ∧
    60 * (getStatistics [recWork] 2024 6).totalWorkHours +
        (getStatistics [recWork] 2024 6).totalWorkMinutes =
      sumWorkMinutes (latestRecordsByDate (monthlyFilter [recWork] 2024 6)) := by
  exact ⟨by decide, (statistics_work_duration_split [recWork] 2024 6 (by decide)).2.2.1⟩

/-- C4 (code bug): the month-range filter of
`Storage.getMonthlyAttendance` ends at `new Date(year, month, 0)` —
MIDNIGHT at the start of the last day of the month — so a record
created at noon on 30/06/2024 is dated inside June yet excluded, while
the one created exactly at `00:00` that day is included; the codebase's
other month filter (`Attendance.getStatistics`, selecting on the
month/year fields) includes the noon record. -/
theorem monthlyAttendance_drops_last_day :
    recNoon.dateTime.year = 2024 ∧
    recNoon.dateTime.month = 6 ∧
    recNoon.dateTime.day = daysInMonth 2024 6 ∧
    getMonthlyAttendance [recNoon] 2024 6 = [] ∧
    monthlyFilter [recNoon] 2024 6 = [recNoon] ∧
    getMonthlyAttendance [recMidnight] 2024 6 = [recMidnight] := by
  refine ⟨rfl, rfl, by decide, by decide, by decide, by decide⟩

/-- Auxiliary invariant: the drain loop of `syncOfflineQueue` only
touches the stored records; it never writes the queue. -/
theorem drain_foldl_offlineQueue (queue : List AttendanceRecord) :
    ∀ s : SyncState,
      (queue.foldl (fun s r => { s with records := syncAttendance s.records r }) s).offlineQueue
        = s.offlineQueue := by
  induction queue with
  | nil => intro s; rfl
  | cons r q ih => intro s; rw [List.foldl_cons, ih]

/-- C9 (code bug): `Storage.updateAttendanceRecord` signals sync
failure by RETURNING `false` — it never throws — and `syncAttendance`
ignores that value, so the `catch` in `syncOfflineQueue` that would
re-enqueue a failed record never fires.  Consequently every drain pass
leaves the queue empty no matter how many syncs failed; concretely, a
queued record whose id the store does not contain (never sync-able) is
removed from the queue in a single pass, the store still marks nothing
synced, and the all-synced success notice is reported. -/
theorem syncOfflineQueue_drops_unsyncable :
    (∀ st : SyncState, ((syncOfflineQueue st).1).offlineQueue = []) ∧
    (updateAttendanceRecord [] recGhost.id { synced := some true }).1 = false ∧
    syncAttendance [] recGhost = [] ∧
    syncOfflineQueue ⟨[], [recGhost]⟩ = (⟨[], []⟩, true) := by
  refine ⟨?_, by decide, by decide, by decide⟩
  intro st
  unfold syncOfflineQueue
  by_cases h : st.offlineQueue.length == 0
  · rw [if_pos h]
    have hlen : st.offlineQueue.length = 0 := by simpa using h
    exact List.length_eq_zero.mp hlen
  · rw [if_neg h]
    exact drain_foldl_offlineQueue st.offlineQueue { st with offlineQueue := [] }

/-- Witness for C5: a `09:16` time-in under the shipped schedule is
classified `late` by the proved equivalence. -/
theorem timeIn_late_iff_strictly_after_threshold_witness :
    (handleTimeIn defaultSchedule 1 1 "03/06/2024" ⟨2024, 6, 3, 9 * 60 + 16⟩).status
      = "late" := by
  exact (timeIn_late_iff_strictly_after_threshold defaultSchedule 1 1 "03/06/2024"
    ⟨2024, 6, 3, 9 * 60 + 16⟩).1.mpr (by decide)

/-- Witness for C8: over an empty store the month has `totalDays = 0`
and the attendance rate is `0` — no division happens. -/
theorem attendanceRate_zero_guarded_witness :
    (getStatistics ([] : List AttendanceRecord) 2024 6).attendanceRate = 0 := by
  have ht : (getStatistics ([] : List AttendanceRecord) 2024 6).totalDays = 0 := by decide
  rw [(attendanceRate_zero_guarded ([] : List AttendanceRecord) 2024 6).1, ht]
  simp
